import Mathlib

/-!
Shallow embedding of `src/main.py` (Cribl Control Plane SDK sandbox).

The script reads OAuth2 credentials from environment variables with
placeholder defaults, derives a server URL, checks readiness (no field may
start with the sentinel text `your-`), constructs an SDK client, issues a
single probe call listing git branches, and classifies the outcome
(non-empty list / empty list / 401 / 429 / other error).  The SDK itself is
an external collaborator: its single call is modelled by a `ProbeOutcome`
value handed to the flow, and the flow records how many network calls it
attempted.  Console output is modelled as the ordered list of printed lines.
-/

/-- An environment: `os.getenv` returns the value when the variable is set. -/
def Env : Type := String → Option String

/-- Model of `os.getenv(name, default)` (main.py lines 73-76). -/
def os_getenv (env : Env) (name fallback : String) : String :=
  (env name).getD fallback

/-- The four configuration values read by `cribl_cloud_example`. -/
structure Credentials where
  ORG_ID : String
  CLIENT_ID : String
  CLIENT_SECRET : String
  WORKSPACE_NAME : String
deriving DecidableEq

/-- Configuration resolution, main.py lines 73-76: each variable falls back
to its documented placeholder default; the workspace defaults to `main`. -/
def resolveCredentials (env : Env) : Credentials :=
  { ORG_ID := os_getenv env "CRIBL_ORG_ID" "your-org-id"
    CLIENT_ID := os_getenv env "CRIBL_CLIENT_ID" "your-client-id"
    CLIENT_SECRET := os_getenv env "CRIBL_CLIENT_SECRET" "your-client-secret"
    WORKSPACE_NAME := os_getenv env "CRIBL_WORKSPACE_NAME" "main" }

/-- Model of Python `val.startswith(pre)` on strings. -/
def py_startswith (val pre : String) : Bool :=
  pre.data.isPrefixOf val.data

/-- The readiness test of main.py line 82:
`any(val.startswith("your-") for val in [ORG_ID, CLIENT_ID, CLIENT_SECRET])`. -/
def hasPlaceholderCredentials (c : Credentials) : Bool :=
  [c.ORG_ID, c.CLIENT_ID, c.CLIENT_SECRET].any (fun val => py_startswith val "your-")

/-- The derived server URL of main.py line 78. -/
def base_url (c : Credentials) : String :=
  "https://" ++ c.WORKSPACE_NAME ++ "-" ++ c.ORG_ID ++ ".cribl.cloud/api/v1"

/-- A git branch as returned by the SDK: the flow only reads its `id`. -/
structure Branch where
  id : String
deriving DecidableEq

/-- The probe response object.  `items := none` models a response whose
`items` attribute is present but `None`; `some l` models a list value. -/
structure BranchListResponse where
  items : Option (List Branch)
deriving DecidableEq

/-- Outcome of the single SDK call `client.versions.branches.list_async()`:
either a response object, or a raised exception carrying an optional
`status_code` attribute (read via `getattr(error, "status_code", None)`)
and its message text. -/
inductive ProbeOutcome where
  | ok (response : BranchListResponse)
  | raised (status_code : Option Int) (message : String)
deriving DecidableEq

/-- Python truthiness of the `items` field (main.py line 110): `None` and
the empty list are falsy, a non-empty list is truthy. -/
def py_truthy : Option (List Branch) → Bool
  | none => false
  | some l => !l.isEmpty

/-- How a run of `cribl_cloud_example` ended. -/
inductive Classification where
  | importFailure
  | notReady
  | successNonEmpty
  | successEmpty
  | errorUnauthorized
  | errorRateLimited
  | errorOther
deriving DecidableEq

/-- Result of one run of the flow: the printed lines in order, the number
of network calls attempted, and the classified outcome. -/
structure FlowResult where
  output : List String
  networkCalls : Nat
  classification : Classification
deriving DecidableEq

/-- Shallow embedding of `cribl_cloud_example` (main.py lines 53-123).
`sdkAvailable`/`sdkImportError` model the module-level import guard
(lines 18-24); `probe` is the outcome the external SDK would produce if the
single call of line 108 is attempted. -/
def cribl_cloud_example (sdkAvailable : Bool) (sdkImportError : String)
    (env : Env) (probe : ProbeOutcome) : FlowResult :=
  if !sdkAvailable then
    { output := ["❌ Failed to import Cribl SDK: " ++ sdkImportError,
                 "💡 Make sure the SDK is installed: pip install -r requirements.txt"]
      networkCalls := 0
      classification := .importFailure }
  else
    let c := resolveCredentials env
    let url := base_url c
    let header := ["✅ Cribl Control Plane SDK imported successfully!",
                   "📡 Server URL: " ++ url]
    if hasPlaceholderCredentials c then
      { output := header ++
          ["⚠️  Using placeholder credentials. Set environment variables to test real API calls:",
           "   • CRIBL_ORG_ID",
           "   • CRIBL_CLIENT_ID",
           "   • CRIBL_CLIENT_SECRET",
           "   • CRIBL_WORKSPACE_NAME (optional, defaults to main)",
           "\n💡 Copy env.example to .env and fill in your values!"]
        networkCalls := 0
        classification := .notReady }
    else
      let setupOut := header ++
        ["🔧 Setting up OAuth2 authentication...",
         "✅ Cribl SDK client created for Cribl.Cloud deployment",
         "🔍 Testing connection by listing git branches..."]
      match probe with
      | .ok response =>
        if py_truthy response.items then
          let branches :=
            String.intercalate "\n\t" ((response.items.getD []).map Branch.id)
          { output := setupOut ++
              ["✅ Client works! Your list of branches:\n\t" ++ branches]
            networkCalls := 1
            classification := .successNonEmpty }
        else
          { output := setupOut ++
              ["✅ Client works! No branches found (this is normal for new deployments)"]
            networkCalls := 1
            classification := .successEmpty }
      | .raised status_code message =>
        if status_code = some 401 then
          { output := setupOut ++
              ["⚠️ Authentication failed! Check your CLIENT_ID and CLIENT_SECRET."]
            networkCalls := 1
            classification := .errorUnauthorized }
        else if status_code = some 429 then
          { output := setupOut ++
              ["⚠️ Uh oh, you have reached the rate limit! Try again in a few seconds."]
            networkCalls := 1
            classification := .errorRateLimited }
        else
          { output := setupOut ++
              ["❌ Something went wrong: " ++ message]
            networkCalls := 1
            classification := .errorOther }

/-- How the top-level `asyncio.run(main())` ended, as seen by the
`__main__` guard of main.py lines 147-156. -/
inductive RunOutcome where
  | completed
  | keyboardInterrupt
  | uncaughtException (message : String)
deriving DecidableEq

/-- Process exit code produced by the guard of main.py lines 147-156:
normal completion falls through (exit 0), `KeyboardInterrupt` calls
`sys.exit(0)`, any other exception calls `sys.exit(1)`. -/
def top_level_exit_code : RunOutcome → Nat
  | .completed => 0
  | .keyboardInterrupt => 0
  | .uncaughtException _ => 1

/-- A concrete environment holding real-looking (non-placeholder) values. -/
def envReady : Env := fun n =>
  if n = "CRIBL_ORG_ID" then some "org123"
  else if n = "CRIBL_CLIENT_ID" then some "cid-1"
  else if n = "CRIBL_CLIENT_SECRET" then some "secret-1"
  else if n = "CRIBL_WORKSPACE_NAME" then some "acme"
  else none

/-- The empty environment: every variable falls back to its placeholder. -/
def envDefault : Env := fun _ => none

/-- An environment whose three OAuth2 fields all differ from their literal
placeholder defaults, yet whose org id still starts with `your-`. -/
def envNonDefault : Env := fun n =>
  if n = "CRIBL_ORG_ID" then some "your-company-org"
  else if n = "CRIBL_CLIENT_ID" then some "cid-1"
  else if n = "CRIBL_CLIENT_SECRET" then some "secret-1"
  else none

/-- If one of the three OAuth2 fields equals its literal placeholder
default, line 82's `any(... startswith("your-") ...)` test fires. -/
theorem placeholder_of_sentinel (c : Credentials)
    (h : c.ORG_ID = "your-org-id" ∨ c.CLIENT_ID = "your-client-id" ∨
         c.CLIENT_SECRET = "your-client-secret") :
    hasPlaceholderCredentials c = true := by
  have h1 : py_startswith "your-org-id" "your-" = true := by decide
  have h2 : py_startswith "your-client-id" "your-" = true := by decide
  have h3 : py_startswith "your-client-secret" "your-" = true := by decide
  rcases h with h | h | h <;> simp [hasPlaceholderCredentials, h, h1, h2, h3]

/-- In the not-ready branch the flow's whole result is fixed: remediation
lines, zero network calls, classification `notReady`. -/
theorem flow_not_ready (e : String) (env : Env) (probe : ProbeOutcome)
    (h : hasPlaceholderCredentials (resolveCredentials env) = true) :
    cribl_cloud_example true e env probe =
      { output := ["✅ Cribl Control Plane SDK imported successfully!",
                   "📡 Server URL: " ++ base_url (resolveCredentials env),
                   "⚠️  Using placeholder credentials. Set environment variables to test real API calls:",
                   "   • CRIBL_ORG_ID",
                   "   • CRIBL_CLIENT_ID",
                   "   • CRIBL_CLIENT_SECRET",
                   "   • CRIBL_WORKSPACE_NAME (optional, defaults to main)",
                   "\n💡 Copy env.example to .env and fill in your values!"]
        networkCalls := 0
        classification := .notReady } := by
  simp [cribl_cloud_example, h]

/-- Claim C1: whenever any OAuth2 field equals its placeholder sentinel
default, the flow judges itself not-ready, prints the remediation lines
naming the variables to set, and returns without issuing a network call
(the network call count stays 0). -/
theorem C1_sentinel_not_ready (e : String) (env : Env) (probe : ProbeOutcome)
    (h : (resolveCredentials env).ORG_ID = "your-org-id" ∨
         (resolveCredentials env).CLIENT_ID = "your-client-id" ∨
         (resolveCredentials env).CLIENT_SECRET = "your-client-secret") :
    (cribl_cloud_example true e env probe).classification = .notReady ∧
    (cribl_cloud_example true e env probe).networkCalls = 0 ∧
    "   • CRIBL_ORG_ID" ∈ (cribl_cloud_example true e env probe).output ∧
    "   • CRIBL_CLIENT_ID" ∈ (cribl_cloud_example true e env probe).output ∧
    "   • CRIBL_CLIENT_SECRET" ∈ (cribl_cloud_example true e env probe).output := by
  rw [flow_not_ready e env probe (placeholder_of_sentinel _ h)]
  simp

/-- Witness for C1 at the empty environment (all fields default to their
sentinels); the probe stub is irrelevant since it is never consulted. -/
theorem C1_sentinel_not_ready_witness :
    (cribl_cloud_example true "" envDefault (.ok ⟨some []⟩)).classification = .notReady ∧
    (cribl_cloud_example true "" envDefault (.ok ⟨some []⟩)).networkCalls = 0 ∧
    "   • CRIBL_ORG_ID" ∈ (cribl_cloud_example true "" envDefault (.ok ⟨some []⟩)).output ∧
    "   • CRIBL_CLIENT_ID" ∈ (cribl_cloud_example true "" envDefault (.ok ⟨some []⟩)).output ∧
    "   • CRIBL_CLIENT_SECRET" ∈ (cribl_cloud_example true "" envDefault (.ok ⟨some []⟩)).output :=
  C1_sentinel_not_ready "" envDefault (.ok ⟨some []⟩) (by decide)

/-- Claim C6: the flow attempts at most one network call in every run, so
no error path can trigger an automatic retry (a retry would need a second
call). -/
theorem C6_at_most_one_call (sdkAvailable : Bool) (e : String) (env : Env)
    (probe : ProbeOutcome) :
    (cribl_cloud_example sdkAvailable e env probe).networkCalls ≤ 1 := by
  cases sdkAvailable with
  | false => simp [cribl_cloud_example]
  | true =>
    by_cases hp : hasPlaceholderCredentials (resolveCredentials env) = true
    · simp [cribl_cloud_example, hp]
    · cases probe with
      | ok r =>
        by_cases ht : py_truthy r.items = true <;> simp [cribl_cloud_example, hp, ht]
      | raised sc m =>
        by_cases h1 : sc = some 401
        · simp [cribl_cloud_example, hp, h1]
        · by_cases h2 : sc = some 429 <;> simp [cribl_cloud_example, hp, h1, h2]

/-- Claim C7: the process exits with code 0 on normal completion and on
`KeyboardInterrupt`, and with code 1 exactly on an exception escaping all
inner handlers (the three cases exhaust `RunOutcome`). -/
theorem C7_exit_codes :
    top_level_exit_code .completed = 0 ∧
    top_level_exit_code .keyboardInterrupt = 0 ∧
    ∀ m : String, top_level_exit_code (.uncaughtException m) = 1 :=
  ⟨rfl, rfl, fun _ => rfl⟩

/-- Claim C8: with identical not-ready credentials the flow is idempotent:
two runs produce the same full result (in particular the same remediation
output), and both issue zero network calls. -/
theorem C8_not_ready_idempotent (env : Env) (probe1 probe2 : ProbeOutcome)
    (h : hasPlaceholderCredentials (resolveCredentials env) = true) :
    cribl_cloud_example true "" env probe1 = cribl_cloud_example true "" env probe2 ∧
    (cribl_cloud_example true "" env probe1).networkCalls = 0 ∧
    (cribl_cloud_example true "" env probe2).networkCalls = 0 := by
  rw [flow_not_ready "" env probe1 h, flow_not_ready "" env probe2 h]
  simp

/-- Witness for C8 at the empty environment. -/
theorem C8_not_ready_idempotent_witness :
    cribl_cloud_example true "" envDefault (.ok ⟨some []⟩) =
      cribl_cloud_example true "" envDefault (.raised (some 500) "boom") ∧
    (cribl_cloud_example true "" envDefault (.ok ⟨some []⟩)).networkCalls = 0 ∧
    (cribl_cloud_example true "" envDefault (.raised (some 500) "boom")).networkCalls = 0 :=
  C8_not_ready_idempotent envDefault (.ok ⟨some []⟩) (.raised (some 500) "boom") (by decide)

/-- Claim C9: when the SDK import failed, the flow reports the recorded
error with an installation hint and returns at once: the result is
exactly these two lines, zero network calls, classification
`importFailure` — no credential is read (no URL line is printed) and
nothing is raised (the flow is a total function). -/
theorem C9_import_failure (sdkImportError : String) (env : Env) (probe : ProbeOutcome) :
    cribl_cloud_example false sdkImportError env probe =
      { output := ["❌ Failed to import Cribl SDK: " ++ sdkImportError,
                   "💡 Make sure the SDK is installed: pip install -r requirements.txt"]
        networkCalls := 0
        classification := .importFailure } := rfl

/-- Claim C2: every probe error is caught and classified by its optional
`status_code` attribute: 401 yields `errorUnauthorized` with a credential
hint, 429 yields `errorRateLimited` with a backoff hint, and any other
value (including none) yields `errorOther` with the original message text
preserved verbatim in the output.  The flow is a total function of the
raised error, so nothing propagates past the probe boundary. -/
theorem C2_probe_error_classified (env : Env) (sc : Option Int) (msg : String)
    (h : hasPlaceholderCredentials (resolveCredentials env) = false) :
    (cribl_cloud_example true "" env (.raised sc msg)).networkCalls = 1 ∧
    (sc = some 401 →
      (cribl_cloud_example true "" env (.raised sc msg)).classification = .errorUnauthorized ∧
      "⚠️ Authentication failed! Check your CLIENT_ID and CLIENT_SECRET." ∈
        (cribl_cloud_example true "" env (.raised sc msg)).output) ∧
    (sc = some 429 →
      (cribl_cloud_example true "" env (.raised sc msg)).classification = .errorRateLimited ∧
      "⚠️ Uh oh, you have reached the rate limit! Try again in a few seconds." ∈
        (cribl_cloud_example true "" env (.raised sc msg)).output) ∧
    (sc ≠ some 401 → sc ≠ some 429 →
      (cribl_cloud_example true "" env (.raised sc msg)).classification = .errorOther ∧
      ("❌ Something went wrong: " ++ msg) ∈
        (cribl_cloud_example true "" env (.raised sc msg)).output) := by
  by_cases h1 : sc = some 401
  · simp [cribl_cloud_example, h, h1]
  · by_cases h2 : sc = some 429 <;> simp [cribl_cloud_example, h, h1, h2]

/-- Witness for C2 with real-looking credentials and a 500 error. -/
theorem C2_probe_error_classified_witness :
    (cribl_cloud_example true "" envReady (.raised (some 500) "boom")).networkCalls = 1 ∧
    (some (500 : Int) = some 401 →
      (cribl_cloud_example true "" envReady (.raised (some 500) "boom")).classification = .errorUnauthorized ∧
      "⚠️ Authentication failed! Check your CLIENT_ID and CLIENT_SECRET." ∈
        (cribl_cloud_example true "" envReady (.raised (some 500) "boom")).output) ∧
    (some (500 : Int) = some 429 →
      (cribl_cloud_example true "" envReady (.raised (some 500) "boom")).classification = .errorRateLimited ∧
      "⚠️ Uh oh, you have reached the rate limit! Try again in a few seconds." ∈
        (cribl_cloud_example true "" envReady (.raised (some 500) "boom")).output) ∧
    (some (500 : Int) ≠ some 401 → some (500 : Int) ≠ some 429 →
      (cribl_cloud_example true "" envReady (.raised (some 500) "boom")).classification = .errorOther ∧
      ("❌ Something went wrong: " ++ "boom") ∈
        (cribl_cloud_example true "" envReady (.raised (some 500) "boom")).output) :=
  C2_probe_error_classified envReady (some 500) "boom" (by decide)

/-- Claim C3 is false as written: all three OAuth2 fields can differ from
their placeholder sentinel defaults while the flow still judges itself
not-ready, because line 82 tests whether a field starts with the text
`your-`, not whether it equals its default.  Concretely, an org id of
`your-company-org` differs from `your-org-id` yet stays not-ready with no
network call. -/
theorem C3_nondefault_fields_still_not_ready :
    (resolveCredentials envNonDefault).ORG_ID ≠ "your-org-id" ∧
    (resolveCredentials envNonDefault).CLIENT_ID ≠ "your-client-id" ∧
    (resolveCredentials envNonDefault).CLIENT_SECRET ≠ "your-client-secret" ∧
    (cribl_cloud_example true "" envNonDefault (.ok ⟨some []⟩)).classification = .notReady ∧
    (cribl_cloud_example true "" envNonDefault (.ok ⟨some []⟩)).networkCalls = 0 := by
  decide

/-- Claim C3 (amended): for every Credentials value none of whose OAuth2
fields starts with the sentinel text `your-`, the readiness check passes
and the flow proceeds to the probe call: exactly one network call is made
and the outcome is never `notReady`. -/
theorem C3_no_sentinel_text_ready (env : Env) (probe : ProbeOutcome)
    (h1 : py_startswith (resolveCredentials env).ORG_ID "your-" = false)
    (h2 : py_startswith (resolveCredentials env).CLIENT_ID "your-" = false)
    (h3 : py_startswith (resolveCredentials env).CLIENT_SECRET "your-" = false) :
    (cribl_cloud_example true "" env probe).networkCalls = 1 ∧
    (cribl_cloud_example true "" env probe).classification ≠ .notReady := by
  have h : hasPlaceholderCredentials (resolveCredentials env) = false := by
    simp [hasPlaceholderCredentials, h1, h2, h3]
  cases probe with
  | ok r => by_cases ht : py_truthy r.items = true <;> simp [cribl_cloud_example, h, ht]
  | raised sc m =>
    by_cases ha : sc = some 401
    · simp [cribl_cloud_example, h, ha]
    · by_cases hb : sc = some 429 <;> simp [cribl_cloud_example, h, ha, hb]

/-- Witness for the amended C3 with real-looking credentials. -/
theorem C3_no_sentinel_text_ready_witness :
    (cribl_cloud_example true "" envReady (.ok ⟨some []⟩)).networkCalls = 1 ∧
    (cribl_cloud_example true "" envReady (.ok ⟨some []⟩)).classification ≠ .notReady :=
  C3_no_sentinel_text_ready envReady (.ok ⟨some []⟩) (by decide) (by decide) (by decide)

/-- Claim C4: with ready credentials, an empty items list is classified
`successEmpty` with the distinct no-branches message (not an error), and a
non-empty items list is classified `successNonEmpty` with the branch ids
joined by the delimiter in exactly the order returned, never reordered. -/
theorem C4_success_classified (env : Env) (items : List Branch)
    (h : hasPlaceholderCredentials (resolveCredentials env) = false) :
    ((cribl_cloud_example true "" env (.ok ⟨some []⟩)).classification = .successEmpty ∧
     "✅ Client works! No branches found (this is normal for new deployments)" ∈
       (cribl_cloud_example true "" env (.ok ⟨some []⟩)).output) ∧
    (items ≠ [] →
      (cribl_cloud_example true "" env (.ok ⟨some items⟩)).classification = .successNonEmpty ∧
      ("✅ Client works! Your list of branches:\n\t" ++
          String.intercalate "\n\t" (items.map Branch.id)) ∈
        (cribl_cloud_example true "" env (.ok ⟨some items⟩)).output) := by
  constructor
  · simp [cribl_cloud_example, h, py_truthy]
  · intro hne
    have ht : py_truthy (some items) = true := by
      cases items with
      | nil => cases hne rfl
      | cons a l => rfl
    simp [cribl_cloud_example, h, ht]

/-- Witness for C4 with branches `main` and `dev`: the joined text is
`main`, newline, tab, `dev` — input order preserved. -/
theorem C4_success_classified_witness :
    (((cribl_cloud_example true "" envReady (.ok ⟨some []⟩)).classification = .successEmpty ∧
      "✅ Client works! No branches found (this is normal for new deployments)" ∈
        (cribl_cloud_example true "" envReady (.ok ⟨some []⟩)).output) ∧
     ([(⟨"main"⟩ : Branch), ⟨"dev"⟩] ≠ [] →
       (cribl_cloud_example true "" envReady
           (.ok ⟨some [⟨"main"⟩, ⟨"dev"⟩]⟩)).classification = .successNonEmpty ∧
       ("✅ Client works! Your list of branches:\n\t" ++
           String.intercalate "\n\t" ([(⟨"main"⟩ : Branch), ⟨"dev"⟩].map Branch.id)) ∈
         (cribl_cloud_example true "" envReady (.ok ⟨some [⟨"main"⟩, ⟨"dev"⟩]⟩)).output)) ∧
    String.intercalate "\n\t" ["main", "dev"] = "main\n\tdev" :=
  ⟨C4_success_classified envReady [⟨"main"⟩, ⟨"dev"⟩] (by decide), by decide⟩

/-- Claim C5: whenever the SDK imported, the flow prints the server URL
derived by template substitution from workspace name and org id; for every
Credentials the template is `https://` workspace `-` org
`.cribl.cloud/api/v1`, and in particular workspace `acme` with org
`org123` yields `https://acme-org123.cribl.cloud/api/v1`. -/
theorem C5_endpoint_derivation (sdkErr : String) (env : Env) (probe : ProbeOutcome) :
    ("📡 Server URL: " ++ base_url (resolveCredentials env)) ∈
      (cribl_cloud_example true sdkErr env probe).output ∧
    (∀ c : Credentials,
      base_url c = "https://" ++ c.WORKSPACE_NAME ++ "-" ++ c.ORG_ID ++ ".cribl.cloud/api/v1") ∧
    base_url (resolveCredentials envReady) = "https://acme-org123.cribl.cloud/api/v1" := by
  refine ⟨?_, fun c => rfl, by decide⟩
  by_cases hp : hasPlaceholderCredentials (resolveCredentials env) = true
  · simp [cribl_cloud_example, hp]
  · cases probe with
    | ok r => by_cases ht : py_truthy r.items = true <;> simp [cribl_cloud_example, hp, ht]
    | raised sc m =>
      by_cases ha : sc = some 401
      · simp [cribl_cloud_example, hp, ha]
      · by_cases hb : sc = some 429 <;> simp [cribl_cloud_example, hp, ha, hb]

/-- Claim C10: the success classifier branches on Python truthiness of
`items`, so a response whose `items` is `None` is classified exactly like
an empty list: `successEmpty`, with the no-branches message, and the whole
flow result coincides with the empty-list run. -/
theorem C10_null_items_classified_empty (env : Env)
    (h : hasPlaceholderCredentials (resolveCredentials env) = false) :
    (cribl_cloud_example true "" env (.ok ⟨none⟩)).classification = .successEmpty ∧
    "✅ Client works! No branches found (this is normal for new deployments)" ∈
      (cribl_cloud_example true "" env (.ok ⟨none⟩)).output ∧
    cribl_cloud_example true "" env (.ok ⟨none⟩) =
      cribl_cloud_example true "" env (.ok ⟨some []⟩) := by
  refine ⟨?_, ?_, ?_⟩ <;> simp [cribl_cloud_example, h, py_truthy]

/-- Witness for C10 with real-looking credentials. -/
theorem C10_null_items_classified_empty_witness :
    (cribl_cloud_example true "" envReady (.ok ⟨none⟩)).classification = .successEmpty ∧
    "✅ Client works! No branches found (this is normal for new deployments)" ∈
      (cribl_cloud_example true "" envReady (.ok ⟨none⟩)).output ∧
    cribl_cloud_example true "" envReady (.ok ⟨none⟩) =
      cribl_cloud_example true "" envReady (.ok ⟨some []⟩) :=
  C10_null_items_classified_empty envReady (by decide)
